import Mathlib

/-!
Focused Work Tracker — verification of the tracking core.

Shallow embedding of the tracker core (class `FocusedWorkTracker` and the
pointer-sampling loop `CursorTracker.run`). Timestamps are modelled as
integers (seconds), probe interactions as explicit inputs to each operation,
and the Python exception raised by a probe as an explicit constructor, so
that every method becomes a pure function on the tracker state.
-/

/-- Result of one window-probe query (`gw.getActiveWindow()` wrapped by
`get_active_window`): the query may find a focused window with a title,
succeed while no window is focused (Python `None`), or raise an exception
carrying a message. -/
inductive WindowProbeResult where
  | found (title : String)
  | noWindow
  | raised (msg : String)
deriving DecidableEq

/-- Result of one pointer-probe query (`mouse.Controller().position`): either
a coordinate pair or a raised exception carrying a message. -/
inductive PointerProbeResult where
  | success (pos : Int × Int)
  | raised (msg : String)
deriving DecidableEq

/-- The mutable state of `FocusedWorkTracker` as set up in `__init__`:
`active_window = None`, `start_time = None`, `total_time = 0`,
`is_tracking = False`, `is_paused = False`, empty `cursor_positions` and
`window_changes`. A `window_changes` entry is a (timestamp, title) pair. -/
structure Tracker where
  active_window : Option String
  start_time : Option Int
  total_time : Int
  is_tracking : Bool
  is_paused : Bool
  cursor_positions : List (Int × Int)
  window_changes : List (Int × String)
deriving DecidableEq

/-- The constructor `FocusedWorkTracker.__init__`. -/
def initTracker : Tracker :=
  { active_window := none
    start_time := none
    total_time := 0
    is_tracking := false
    is_paused := false
    cursor_positions := []
    window_changes := [] }

/-- Method `FocusedWorkTracker.get_active_window`: returns the window title when one
is focused, the string "No active window" when the query succeeds with no
window, and — in the `except` branch — the string of the exception itself
(`str(e)`), after logging the error. -/
def get_active_window (r : WindowProbeResult) : String :=
  match r with
  | .found title => title
  | .noWindow => "No active window"
  | .raised msg => msg

/-- Method `FocusedWorkTracker.register_window_change`: reads the probe via
`get_active_window`; if the result differs from the cached `active_window`,
updates the cache and appends a (timestamp, title) entry to
`window_changes`; otherwise does nothing. -/
def register_window_change (r : WindowProbeResult) (now : Int) (s : Tracker) :
    Tracker :=
  let current_window := get_active_window r
  if s.active_window ≠ some current_window then
    { s with active_window := some current_window
             window_changes := s.window_changes ++ [(now, current_window)] }
  else s

/-- Method `FocusedWorkTracker.start_tracking`: sets `is_tracking = True`,
`start_time = now`, clears `cursor_positions` and `window_changes`, then
performs one synchronous `register_window_change`. It touches neither
`total_time` nor `is_paused`. -/
def start_tracking (r : WindowProbeResult) (now : Int) (s : Tracker) :
    Tracker :=
  register_window_change r now
    { s with is_tracking := true
             start_time := some now
             cursor_positions := []
             window_changes := [] }

/-- Method `FocusedWorkTracker.pause_tracking`: guarded by
`is_tracking and not is_paused`; sets `is_paused = True`, else a no-op. -/
def pause_tracking (s : Tracker) : Tracker :=
  if s.is_tracking && !s.is_paused then { s with is_paused := true } else s

/-- Method `FocusedWorkTracker.resume_tracking`: guarded by
`is_tracking and is_paused`; clears `is_paused` and resets
`start_time = now`, else a no-op. -/
def resume_tracking (now : Int) (s : Tracker) : Tracker :=
  if s.is_tracking && s.is_paused then
    { s with is_paused := false, start_time := some now }
  else s

/-- Method `FocusedWorkTracker.stop_tracking`: guarded by `is_tracking`; computes
`elapsed = now - start_time` when not paused and `0` when paused, adds it to
`total_time`, clears `is_tracking` and `start_time`. It does not touch
`is_paused`. (`start_time` is always set while `is_tracking` holds, so the
`getD 0` default is never exercised on reachable states.) -/
def stop_tracking (now : Int) (s : Tracker) : Tracker :=
  if s.is_tracking then
    let elapsed : Int := if !s.is_paused then now - s.start_time.getD 0 else 0
    { s with total_time := s.total_time + elapsed
             is_tracking := false
             start_time := none }
  else s

/-- Method `FocusedWorkTracker.get_total_time`. -/
def get_total_time (s : Tracker) : Int :=
  s.total_time

/-- Method `FocusedWorkTracker.record_cursor_position`: appends unconditionally. -/
def record_cursor_position (pos : Int × Int) (s : Tracker) : Tracker :=
  { s with cursor_positions := s.cursor_positions ++ [pos] }

/-- One iteration of the loop body of `CursorTracker.run`: when
`is_tracking and not is_paused`, it reads `mouse.Controller().position` and
records it. The probe read is NOT wrapped in any `try/except`, so a raised
exception propagates out of the loop body (modelled as `Except.error`),
terminating the thread. -/
def cursorTick (r : PointerProbeResult) (s : Tracker) :
    Except String Tracker :=
  if s.is_tracking && !s.is_paused then
    match r with
    | .success pos => Except.ok (record_cursor_position pos s)
    | .raised msg => Except.error msg
  else Except.ok s

/-- The `while self.running` loop of `CursorTracker.run`, driven by a finite
list of per-tick probe results: each tick runs `cursorTick`; an uncaught
exception ends the loop (and the thread) immediately, so later ticks are
never executed. -/
def cursorLoop (rs : List PointerProbeResult) (s : Tracker) :
    Except String Tracker :=
  match rs with
  | [] => Except.ok s
  | r :: rest =>
    match cursorTick r s with
    | Except.ok s2 => cursorLoop rest s2
    | Except.error msg => Except.error msg

/-- One observable operation on the shared tracker: the four UI commands,
a window-watcher tick (`register_window_change`) and a pointer-sampler tick
(the state effect of `cursorTick`; on a raised probe the tracker state is
left unchanged because the thread dies before recording). -/
inductive Op where
  | start (r : WindowProbeResult) (now : Int)
  | pause
  | resume (now : Int)
  | stop (now : Int)
  | register (r : WindowProbeResult) (now : Int)
  | cursor (r : PointerProbeResult)
deriving DecidableEq

/-- The state effect of one operation on the tracker. -/
def step (op : Op) (s : Tracker) : Tracker :=
  match op with
  | .start r now => start_tracking r now s
  | .pause => pause_tracking s
  | .resume now => resume_tracking now s
  | .stop now => stop_tracking now s
  | .register r now => register_window_change r now s
  | .cursor r =>
    match cursorTick r s with
    | Except.ok s2 => s2
    | Except.error _ => s

/-- Run a list of operations from a state, first operation first. -/
def run (ops : List Op) (s : Tracker) : Tracker :=
  ops.foldl (fun a op => step op a) s

/-- The session states of the specification's §4.1 state machine. -/
inductive SessionState where
  | Idle
  | Running
  | Paused
  | Stopped
deriving DecidableEq

/-- The four abstract commands of the §4.1 transition table. -/
inductive SCmd where
  | start
  | pause
  | resume
  | stop
deriving DecidableEq

/-- The §4.1 transition table, written from the specification: `start` moves
any state to Running; `pause` moves Running to Paused; `resume` moves Paused
to Running; `stop` moves Running or Paused to Stopped; any command in a
state that does not support it is a no-op. -/
def specStep (c : SCmd) (σ : SessionState) : SessionState :=
  match c, σ with
  | .start, _ => .Running
  | .pause, .Running => .Paused
  | .pause, σ => σ
  | .resume, .Paused => .Running
  | .resume, σ => σ
  | .stop, .Running => .Stopped
  | .stop, .Paused => .Stopped
  | .stop, σ => σ

/-- Run the specification state machine over a command list. -/
def specRun (cs : List SCmd) (σ : SessionState) : SessionState :=
  cs.foldl (fun a c => specStep c a) σ

/-- The correspondence between a §4.1 session state and the tracker's two
boolean flags: Running is tracking and not paused, Paused is tracking and
paused, Idle and Stopped are not tracking. -/
def matchesState (σ : SessionState) (s : Tracker) : Prop :=
  match σ with
  | .Running => s.is_tracking = true ∧ s.is_paused = false
  | .Paused => s.is_tracking = true ∧ s.is_paused = true
  | .Idle => s.is_tracking = false
  | .Stopped => s.is_tracking = false

instance (σ : SessionState) (s : Tracker) : Decidable (matchesState σ s) := by
  unfold matchesState
  cases σ <;> infer_instance

/-! ## Field-preservation lemmas for the individual operations -/

@[simp]
theorem register_is_tracking (r : WindowProbeResult) (now : Int)
    (s : Tracker) :
    (register_window_change r now s).is_tracking = s.is_tracking := by
  unfold register_window_change
  dsimp only
  split <;> rfl

@[simp]
theorem register_is_paused (r : WindowProbeResult) (now : Int) (s : Tracker) :
    (register_window_change r now s).is_paused = s.is_paused := by
  unfold register_window_change
  dsimp only
  split <;> rfl

@[simp]
theorem register_total_time (r : WindowProbeResult) (now : Int)
    (s : Tracker) :
    (register_window_change r now s).total_time = s.total_time := by
  unfold register_window_change
  dsimp only
  split <;> rfl

@[simp]
theorem register_start_time (r : WindowProbeResult) (now : Int)
    (s : Tracker) :
    (register_window_change r now s).start_time = s.start_time := by
  unfold register_window_change
  dsimp only
  split <;> rfl

@[simp]
theorem register_cursor_positions (r : WindowProbeResult) (now : Int)
    (s : Tracker) :
    (register_window_change r now s).cursor_positions
      = s.cursor_positions := by
  unfold register_window_change
  dsimp only
  split <;> rfl

@[simp]
theorem start_is_tracking (r : WindowProbeResult) (now : Int) (s : Tracker) :
    (start_tracking r now s).is_tracking = true := by
  unfold start_tracking
  rw [register_is_tracking]

@[simp]
theorem start_is_paused (r : WindowProbeResult) (now : Int) (s : Tracker) :
    (start_tracking r now s).is_paused = s.is_paused := by
  unfold start_tracking
  rw [register_is_paused]

@[simp]
theorem start_total_time (r : WindowProbeResult) (now : Int) (s : Tracker) :
    (start_tracking r now s).total_time = s.total_time := by
  unfold start_tracking
  rw [register_total_time]

@[simp]
theorem start_start_time (r : WindowProbeResult) (now : Int) (s : Tracker) :
    (start_tracking r now s).start_time = some now := by
  unfold start_tracking
  rw [register_start_time]

@[simp]
theorem start_cursor_positions (r : WindowProbeResult) (now : Int)
    (s : Tracker) :
    (start_tracking r now s).cursor_positions = [] := by
  unfold start_tracking
  rw [register_cursor_positions]

@[simp]
theorem pause_total_time (s : Tracker) :
    (pause_tracking s).total_time = s.total_time := by
  unfold pause_tracking
  split <;> rfl

@[simp]
theorem pause_is_tracking (s : Tracker) :
    (pause_tracking s).is_tracking = s.is_tracking := by
  unfold pause_tracking
  split <;> rfl

theorem pause_is_paused_of_tracking (s : Tracker) (h : s.is_tracking = true) :
    (pause_tracking s).is_paused = true := by
  unfold pause_tracking
  cases hp : s.is_paused
  · rw [if_pos (by simp [h, hp])]
  · rw [if_neg (by simp [hp])]
    exact hp

/-! ## Claim theorems -/

/-- C1 (code bug): by the §4.1 transition table, `start` from any state
yields Running, so after `start; pause; stop; start` the specification state
is Running; but the code's `stop_tracking` and `start_tracking` never clear
`is_paused`, so after that same command sequence the tracker has
`is_tracking = true` and `is_paused = true` — the Paused configuration, not
the Running one. -/
theorem claim_C1_start_leaves_stale_pause :
    specRun [SCmd.start, SCmd.pause, SCmd.stop, SCmd.start] SessionState.Idle
      = SessionState.Running ∧
    (run [Op.start (.found "Editor") 0, Op.pause, Op.stop 1,
          Op.start (.found "Editor") 10] initTracker).is_tracking = true ∧
    (run [Op.start (.found "Editor") 0, Op.pause, Op.stop 1,
          Op.start (.found "Editor") 10] initTracker).is_paused = true ∧
    ¬ matchesState SessionState.Running
        (run [Op.start (.found "Editor") 0, Op.pause, Op.stop 1,
              Op.start (.found "Editor") 10] initTracker) ∧
    matchesState SessionState.Paused
        (run [Op.start (.found "Editor") 0, Op.pause, Op.stop 1,
              Op.start (.found "Editor") 10] initTracker) := by
  decide

/-- C2: time accrued before a pause is never committed: `pause_tracking`
never changes `total_time`; `resume_tracking` from a paused tracking state
resets `start_time` to the current time; and every
`start → pause → stop` run with no intervening resume leaves `total_time`
exactly as it was before the run. -/
theorem claim_C2_pause_commits_nothing :
    (∀ s : Tracker, (pause_tracking s).total_time = s.total_time) ∧
    (∀ (s : Tracker) (now : Int), s.is_tracking = true → s.is_paused = true →
      (resume_tracking now s).start_time = some now) ∧
    (∀ (s : Tracker) (r : WindowProbeResult) (t1 t2 : Int),
      (stop_tracking t2 (pause_tracking (start_tracking r t1 s))).total_time
        = s.total_time) := by
  refine ⟨pause_total_time, ?_, ?_⟩
  · intro s now h1 h2
    unfold resume_tracking
    rw [if_pos (by simp [h1, h2])]
  · intro s r t1 t2
    have h1 : (pause_tracking (start_tracking r t1 s)).is_tracking = true := by
      rw [pause_is_tracking, start_is_tracking]
    have h2 : (pause_tracking (start_tracking r t1 s)).is_paused = true :=
      pause_is_paused_of_tracking _ (start_is_tracking r t1 s)
    unfold stop_tracking
    rw [if_pos (by simp [h1])]
    simp [h2]

/-- Witness for C2 at a concrete paused tracking state. -/
theorem claim_C2_witness :
    (resume_tracking 7
      (pause_tracking (start_tracking (.found "Editor") 0 initTracker))
      ).start_time = some 7 :=
  claim_C2_pause_commits_nothing.2.1
    (pause_tracking (start_tracking (.found "Editor") 0 initTracker)) 7
    (by decide) (by decide)

/-- C3 (code bug): the same stale `is_paused` slip breaks the claimed
consequence: after `start; pause; stop` the flag stays set, so a fresh
`start` at time 10 followed by `stop` at time 15 with no pause in between
commits 0 seconds instead of the elapsed 5. -/
theorem claim_C3_stop_after_restart_adds_zero :
    (run [Op.start (.found "Editor") 0, Op.pause, Op.stop 1,
          Op.start (.found "Editor") 10, Op.stop 15] initTracker).total_time
      = 0 := by
  decide

/-- C6: a pointer-sampler tick in any state other than Running — not
tracking (Idle/Stopped), or paused — leaves the tracker unchanged, and in
particular appends nothing to `cursor_positions`. -/
theorem claim_C6_no_samples_unless_running (s : Tracker)
    (r : PointerProbeResult)
    (h : s.is_tracking = false ∨ s.is_paused = true) :
    cursorTick r s = Except.ok s ∧
    (step (Op.cursor r) s).cursor_positions = s.cursor_positions := by
  have hg : (s.is_tracking && !s.is_paused) = false := by
    rcases h with h | h <;> simp [h]
  have h1 : cursorTick r s = Except.ok s := by
    unfold cursorTick
    rw [if_neg (by simp [hg])]
  exact ⟨h1, by simp only [step, h1]⟩

/-- Witness for C6 at a concrete paused state. -/
theorem claim_C6_witness :
    cursorTick (.success (1, 2))
        (pause_tracking (start_tracking (.found "Editor") 0 initTracker))
      = Except.ok
        (pause_tracking (start_tracking (.found "Editor") 0 initTracker)) :=
  (claim_C6_no_samples_unless_running
    (pause_tracking (start_tracking (.found "Editor") 0 initTracker))
    (.success (1, 2)) (Or.inr (by decide))).1

/-- C7 (counterexample): when the window query raises an exception with
message "boom", `get_active_window` returns the exception text "boom"
itself, not the sentinel "No active window". -/
theorem claim_C7_counterexample :
    get_active_window (.raised "boom") = "boom" ∧
    get_active_window (.raised "boom") ≠ "No active window" := by
  decide

/-- C7 (amended): a raised window-query exception is caught and never
re-raised, but `get_active_window` returns the exception's message string;
the sentinel "No active window" is the result only of a successful query
that finds no focused window. -/
theorem claim_C7_amended :
    (∀ msg : String, get_active_window (.raised msg) = msg) ∧
    get_active_window .noWindow = "No active window" :=
  ⟨fun _ => rfl, rfl⟩

/-- C8 (code bug): the loop body of `CursorTracker.run` reads the pointer
probe with no exception handler, so a probe failure on one tick terminates
the whole sampling loop: running the loop from a freshly started (Running)
tracker on the tick results [raised "probe error", success (3, 4)] ends with
the uncaught error, and the second, successful tick is never recorded. -/
theorem claim_C8_probe_failure_kills_loop :
    cursorLoop [.raised "probe error", .success (3, 4)]
        (start_tracking (.found "Editor") 0 initTracker)
      = Except.error "probe error" := by
  rfl

/-! ## Further field-preservation lemmas -/

@[simp]
theorem pause_window_changes (s : Tracker) :
    (pause_tracking s).window_changes = s.window_changes := by
  unfold pause_tracking
  split <;> rfl

@[simp]
theorem pause_active_window (s : Tracker) :
    (pause_tracking s).active_window = s.active_window := by
  unfold pause_tracking
  split <;> rfl

@[simp]
theorem resume_total_time (now : Int) (s : Tracker) :
    (resume_tracking now s).total_time = s.total_time := by
  unfold resume_tracking
  split <;> rfl

@[simp]
theorem resume_window_changes (now : Int) (s : Tracker) :
    (resume_tracking now s).window_changes = s.window_changes := by
  unfold resume_tracking
  split <;> rfl

@[simp]
theorem resume_active_window (now : Int) (s : Tracker) :
    (resume_tracking now s).active_window = s.active_window := by
  unfold resume_tracking
  split <;> rfl

@[simp]
theorem stop_window_changes (now : Int) (s : Tracker) :
    (stop_tracking now s).window_changes = s.window_changes := by
  unfold stop_tracking
  dsimp only
  split <;> rfl

@[simp]
theorem stop_active_window (now : Int) (s : Tracker) :
    (stop_tracking now s).active_window = s.active_window := by
  unfold stop_tracking
  dsimp only
  split <;> rfl

@[simp]
theorem record_total_time (pos : Int × Int) (s : Tracker) :
    (record_cursor_position pos s).total_time = s.total_time := rfl

@[simp]
theorem record_window_changes (pos : Int × Int) (s : Tracker) :
    (record_cursor_position pos s).window_changes = s.window_changes := rfl

@[simp]
theorem record_active_window (pos : Int × Int) (s : Tracker) :
    (record_cursor_position pos s).active_window = s.active_window := rfl

/-- A pointer-sampler tick leaves the tracker unchanged or appends exactly
one cursor sample; it never touches any other field. -/
theorem step_cursor_cases (r : PointerProbeResult) (s : Tracker) :
    step (Op.cursor r) s = s ∨
    ∃ pos, step (Op.cursor r) s = record_cursor_position pos s := by
  simp only [step]
  unfold cursorTick
  by_cases hg : (s.is_tracking && !s.is_paused) = true
  · rw [if_pos hg]
    cases r with
    | success pos => exact Or.inr ⟨pos, rfl⟩
    | raised msg => exact Or.inl rfl
  · rw [if_neg hg]
    exact Or.inl rfl

/-- The two branches of `register_window_change`, stated as equations: a
fresh reading different from the cache appends one entry and updates the
cache. -/
theorem register_eq_of_ne {s : Tracker} {r : WindowProbeResult} {now : Int}
    (h : s.active_window ≠ some (get_active_window r)) :
    register_window_change r now s =
      { s with active_window := some (get_active_window r)
               window_changes :=
                 s.window_changes ++ [(now, get_active_window r)] } := by
  unfold register_window_change
  dsimp only
  rw [if_pos h]

/-- The other branch: a fresh reading equal to the cache changes nothing. -/
theorem register_eq_of_eq {s : Tracker} {r : WindowProbeResult} {now : Int}
    (h : s.active_window = some (get_active_window r)) :
    register_window_change r now s = s := by
  unfold register_window_change
  dsimp only
  rw [if_neg (by simp [h])]

/-- Precondition for the monotonicity of `total_time` under one operation:
a `stop` at time `now` must not be given a timestamp earlier than the
recorded segment start; every other operation needs nothing. -/
def timeOk (op : Op) (s : Tracker) : Prop :=
  match op with
  | .stop now => s.start_time.getD 0 ≤ now
  | _ => True

/-- C4 (counterexample): `start_tracking` does not reset `total_time`:
after a first session accumulating 5 seconds (start at time 0, stop at
time 5), a new `start` at time 10 leaves `total_time` at 5, not 0. -/
theorem claim_C4_counterexample :
    (run [Op.start (.found "Editor") 0, Op.stop 5,
          Op.start (.found "Editor") 10] initTracker).total_time = 5 ∧
    (run [Op.start (.found "Editor") 0, Op.stop 5,
          Op.start (.found "Editor") 10] initTracker).total_time ≠ 0 := by
  decide

/-- C4 (amended): `total_time` never decreases under any operation whose
stop timestamp is not earlier than the recorded segment start, and it is
never reset to 0 by any operation: in particular `start_tracking` carries
the accumulated total over unchanged, so only constructing a fresh tracker
yields 0. -/
theorem claim_C4_amended :
    (∀ (s : Tracker) (op : Op), timeOk op s →
      s.total_time ≤ (step op s).total_time) ∧
    (∀ (s : Tracker) (r : WindowProbeResult) (now : Int),
      (step (Op.start r now) s).total_time = s.total_time) := by
  constructor
  · intro s op h
    cases op with
    | start r now => simp [step]
    | pause => simp [step]
    | resume now => simp [step]
    | register r now => simp [step]
    | cursor r =>
      rcases step_cursor_cases r s with hc | ⟨pos, hc⟩ <;> simp [hc]
    | stop now =>
      unfold timeOk at h
      unfold step stop_tracking
      dsimp only
      split
      · cases hp : s.is_paused
        · simp only [hp, Bool.not_false, if_pos]
          omega
        · simp [hp]
      · exact le_refl _
  · intro s r now
    simp [step]

/-- Witness for C4 at a concrete state and operation. -/
theorem claim_C4_witness :
    initTracker.total_time ≤ (step (Op.stop 0) initTracker).total_time ∧
    (step (Op.start (.found "Editor") 3) initTracker).total_time
      = initTracker.total_time :=
  ⟨claim_C4_amended.1 initTracker (Op.stop 0) (le_refl 0),
   claim_C4_amended.2 initTracker (.found "Editor") 3⟩

/-- C5 (counterexample): the scenario does not hold for every cached title.
Reachable state: the always-on window watcher caches "Editor" before the
session starts (tick at time 0), `start` at time 1 reads "Editor" again, and
the four probe readings Editor, Browser, Browser, Terminal follow: because
the cache already held "Editor", neither the seed check nor the first tick
appends, and the log ends with 2 entries, not the claimed 3. -/
theorem claim_C5_counterexample :
    (run [Op.register (.found "Editor") 0, Op.start (.found "Editor") 1,
          Op.register (.found "Editor") 2, Op.register (.found "Browser") 3,
          Op.register (.found "Browser") 4, Op.register (.found "Terminal") 5]
        initTracker).window_changes.length = 2 ∧
    (run [Op.register (.found "Editor") 0, Op.start (.found "Editor") 1,
          Op.register (.found "Editor") 2, Op.register (.found "Browser") 3,
          Op.register (.found "Browser") 4, Op.register (.found "Terminal") 5]
        initTracker).window_changes.length ≠ 3 := by
  decide

/-- C5 (amended): `register_window_change` appends an entry and updates the
cache exactly when the probe result differs from the cached title, and is
the identity when it is unchanged; and the Editor/Browser/Browser/Terminal
scenario yields exactly the 3 entries Editor, Browser, Terminal provided the
title cached before `start` differs from the first reading "Editor" (the
seed check inside `start` reads "Editor" as well). -/
theorem claim_C5_dedup_scenario :
    (∀ (s : Tracker) (r : WindowProbeResult) (now : Int),
      (s.active_window ≠ some (get_active_window r) →
        register_window_change r now s =
          { s with active_window := some (get_active_window r)
                   window_changes :=
                     s.window_changes ++ [(now, get_active_window r)] }) ∧
      (s.active_window = some (get_active_window r) →
        register_window_change r now s = s)) ∧
    (∀ (s : Tracker) (t0 t1 t2 t3 t4 : Int),
      s.active_window ≠ some "Editor" →
      ((run [Op.start (.found "Editor") t0, Op.register (.found "Editor") t1,
             Op.register (.found "Browser") t2,
             Op.register (.found "Browser") t3,
             Op.register (.found "Terminal") t4] s).window_changes).map
          Prod.snd
        = ["Editor", "Browser", "Terminal"]) := by
  constructor
  · exact fun s r now => ⟨register_eq_of_ne, register_eq_of_eq⟩
  · intro s t0 t1 t2 t3 t4 h
    simp [run, step, start_tracking, register_window_change,
          get_active_window, h]

/-- Witness for C5: idempotence on a repeated "Editor" reading, and the full
scenario starting from a cached title "Files" distinct from "Editor". -/
theorem claim_C5_witness :
    register_window_change (.found "Editor") 1
        (register_window_change (.found "Editor") 0 initTracker)
      = register_window_change (.found "Editor") 0 initTracker ∧
    ((run [Op.start (.found "Editor") 1, Op.register (.found "Editor") 2,
           Op.register (.found "Browser") 3, Op.register (.found "Browser") 4,
           Op.register (.found "Terminal") 5]
        (register_window_change (.found "Files") 0 initTracker)).window_changes).map
        Prod.snd
      = ["Editor", "Browser", "Terminal"] :=
  ⟨(claim_C5_dedup_scenario.1
      (register_window_change (.found "Editor") 0 initTracker)
      (.found "Editor") 1).2 (by decide),
   claim_C5_dedup_scenario.2
     (register_window_change (.found "Files") 0 initTracker) 1 2 3 4 5
     (by decide)⟩

/-- C9 (counterexample): `start_tracking` does not always append a first log
entry. Reachable state: a watcher tick at time 0 caches "App"; `start` at
time 5 reads "App" again; the seed check deduplicates against the pre-start
cache, so `window_changes` is empty after `start`. -/
theorem claim_C9_counterexample :
    (start_tracking (.found "App") 5
        (register_window_change (.found "App") 0 initTracker)).window_changes
      = [] := by
  decide

/-- C9 (amended): for every prior state, `start_tracking` clears
`cursor_positions` to empty, sets `start_time` to the current time, and
performs one immediate window check that seeds `active_window` with the
fresh reading; the check appends a first log entry exactly when the fresh
reading differs from the title cached before `start` (which `start` does not
clear), and otherwise leaves the cleared log empty. -/
theorem claim_C9_start_clears_and_seeds (s : Tracker) (r : WindowProbeResult)
    (now : Int) :
    (start_tracking r now s).cursor_positions = [] ∧
    (start_tracking r now s).start_time = some now ∧
    (start_tracking r now s).active_window = some (get_active_window r) ∧
    (start_tracking r now s).window_changes =
      (if s.active_window = some (get_active_window r) then []
       else [(now, get_active_window r)]) := by
  refine ⟨start_cursor_positions r now s, start_start_time r now s, ?_, ?_⟩
  · unfold start_tracking
    by_cases h : s.active_window = some (get_active_window r)
    · rw [register_eq_of_eq (by exact h)]
      exact h
    · rw [register_eq_of_ne (by exact h)]
  · unfold start_tracking
    by_cases h : s.active_window = some (get_active_window r)
    · rw [register_eq_of_eq (by exact h)]
      simp [h]
    · rw [register_eq_of_ne (by exact h)]
      simp [h]

/-! ## The window-change-log deduplication invariant -/

/-- Deduplication property of the window-change log: any two consecutive
entries carry distinct titles. -/
def logDedup (s : Tracker) : Prop :=
  List.Chain' (fun a b => a.2 ≠ b.2) s.window_changes

/-- Cache coherence: whenever the log is non-empty, the cached
`active_window` equals the title of the last appended entry. -/
def lastTitleCached (s : Tracker) : Prop :=
  ∀ e, s.window_changes.getLast? = some e → s.active_window = some e.2

/-- The combined invariant backing the deduplicated log. -/
def trackerInv (s : Tracker) : Prop :=
  logDedup s ∧ lastTitleCached s

/-- Lemma: `register_window_change` preserves the combined invariant: in the
appending branch the fresh title differs from the cache, which by coherence
is the last entry's title. -/
theorem register_preserves_inv {s : Tracker} (r : WindowProbeResult)
    (now : Int) (h : trackerInv s) :
    trackerInv (register_window_change r now s) := by
  obtain ⟨hd, hc⟩ := h
  by_cases he : s.active_window = some (get_active_window r)
  · rw [register_eq_of_eq he]
    exact ⟨hd, hc⟩
  · rw [register_eq_of_ne he]
    constructor
    · unfold logDedup at hd ⊢
      dsimp only
      rw [List.chain'_append]
      refine ⟨hd, List.chain'_singleton _, ?_⟩
      intro x hx y hy
      have hy2 : y = (now, get_active_window r) := by
        have h3 : some (now, get_active_window r) = some y := hy
        exact (Option.some.inj h3).symm
      subst hy2
      have hcx : s.active_window = some x.2 := hc x hx
      intro hxy
      exact he (by rw [hcx, hxy])
    · intro e hee
      dsimp only at hee ⊢
      rw [List.getLast?_concat] at hee
      cases hee
      rfl

/-- A state whose log and cache agree with another's inherits the
invariant. -/
theorem inv_congr {s s2 : Tracker}
    (h1 : s2.window_changes = s.window_changes)
    (h2 : s2.active_window = s.active_window) (h : trackerInv s) :
    trackerInv s2 := by
  obtain ⟨hd, hc⟩ := h
  constructor
  · unfold logDedup
    rw [h1]
    exact hd
  · intro e he
    rw [h1] at he
    rw [h2]
    exact hc e he

/-- C10: the initial tracker satisfies the invariant, and every operation —
the four commands, a window-watcher tick and a pointer-sampler tick —
preserves it: consecutive window-change entries always carry distinct
titles because the cache tracks the last appended title and an entry is
appended only when the fresh reading differs from the cache. -/
theorem claim_C10_log_dedup_invariant :
    trackerInv initTracker ∧
    ∀ (s : Tracker) (op : Op), trackerInv s → trackerInv (step op s) := by
  constructor
  · constructor
    · exact List.chain'_nil
    · intro e he
      simp [initTracker] at he
  · intro s op h
    cases op with
    | start r now =>
      have hcl : trackerInv
          { s with is_tracking := true, start_time := some now
                   cursor_positions := [], window_changes := [] } := by
        constructor
        · exact List.chain'_nil
        · intro e he
          simp at he
      show trackerInv (start_tracking r now s)
      unfold start_tracking
      exact register_preserves_inv r now hcl
    | pause =>
      exact inv_congr (pause_window_changes s) (pause_active_window s) h
    | resume now =>
      exact inv_congr (resume_window_changes now s)
        (resume_active_window now s) h
    | stop now =>
      exact inv_congr (stop_window_changes now s)
        (stop_active_window now s) h
    | register r now =>
      exact register_preserves_inv r now h
    | cursor r =>
      rcases step_cursor_cases r s with hc | ⟨pos, hc⟩
      · rw [hc]
        exact h
      · rw [hc]
        exact inv_congr (record_window_changes pos s)
          (record_active_window pos s) h

/-- Witness for C10: the invariant holds of the initial tracker and is
carried through a concrete pause step. -/
theorem claim_C10_witness :
    trackerInv (step Op.pause initTracker) :=
  claim_C10_log_dedup_invariant.2 initTracker Op.pause
    claim_C10_log_dedup_invariant.1
